import Mathlib

/-!
Shallow embedding of two FastAPI services from this repository:

* the upload service (file `Upload to cloud/main.py`): a POST /upload/
  handler that schedules a background task `upload_to_gcs`, a Postgres
  table `uploads` holding status rows, and a GET /status/(filename)
  polling endpoint `get_upload_status`;
* the email service (file `SendEmail/main.py`): a POST /send-email/
  handler that schedules a background task `send_email` which logs the
  outcome into a Mongo collection `email_logs`.

External collaborators (the GCS client, the SMTP transport, the database
drivers, `json.loads`, `bytes.decode`) are modelled as oracle parameters:
a Bool flag or an `Except String` value saying whether the library call
succeeds or raises, since their internals are out of scope.  Database
tables and Mongo collections are modelled as lists of records in
insertion order; `datetime.now()` timestamps and generated UUIDs are
passed in as parameters.  Raising a Python exception past a function
boundary is modelled by the function returning `Except.error`.
-/

/-- Bytes of a file or of an HTTP body. -/
abbrev Bytes := List Nat

/-! ## Upload service: data model -/

/-- One row of the Postgres table `uploads` created in `lifespan`:
columns `filename, timestamp, file_size, cloud_url, status` (the SERIAL
`id` is the list position; the schema puts no UNIQUE constraint on
`filename`). -/
structure UploadRow where
  filename : String
  timestamp : Nat
  file_size : Nat
  cloud_url : String
  status : String
deriving Repr, DecidableEq

/-- The `uploads` table: rows in insertion order. -/
abbrev UploadStore := List UploadRow

/-- Python `f.replace(" ", "_")`: the pattern is a single character, so
the replacement substitutes every space character by an underscore. -/
def normalizeFilename (f : String) : String :=
  String.mk (f.data.map (fun c => if c = ' ' then '_' else c))

/-- The destination URL computed in `upload_to_gcs` line 43: the Python
f-string interpolating bucket_name and filename into the base URL. -/
def gcsUrl (bucket_name filename : String) : String :=
  "https://storage.googleapis.com/" ++ bucket_name ++ "/" ++ filename

/-- SQL `INSERT INTO uploads (filename, timestamp, file_size, cloud_url,
status) VALUES ($1,$2,$3,$4,$5)`: appends one row. -/
def insertUpload (s : UploadStore) (filename : String) (timestamp file_size : Nat)
    (cloud_url status : String) : UploadStore :=
  s ++ [⟨filename, timestamp, file_size, cloud_url, status⟩]

/-- SQL `UPDATE uploads SET status = st WHERE filename = f`: rewrites the
status of every row whose filename matches (there is no LIMIT and no
unique constraint, so all matching rows are affected). -/
def updateStatus (s : UploadStore) (f st : String) : UploadStore :=
  s.map (fun r => if r.filename = f then { r with status := st } else r)

/-- `conn.fetchrow("SELECT status, cloud_url FROM uploads WHERE filename
= $1", filename)`: the first matching row, or none. -/
def fetchrow (s : UploadStore) (f : String) : Option UploadRow :=
  s.find? (fun r => r.filename == f)

/-! ## Upload service: endpoints and background task -/

/-- JSON body returned by `get_upload_status`. -/
inductive StatusBody where
  /-- The not-found dictionary with its error string. -/
  | notFound (error : String)
  /-- The dictionary with keys filename, status, cloud_url. -/
  | found (filename status : String) (cloud_url : Option String)
deriving Repr, DecidableEq

/-- GET /status/(filename) (`get_upload_status`, main.py lines 187-198):
normalize the path parameter, fetch the first matching row, return the
error dictionary when absent, else filename, status and a cloud_url that
is null unless status equals success. -/
def get_upload_status (s : UploadStore) (filename0 : String) : StatusBody :=
  let filename := normalizeFilename filename0
  match fetchrow s filename with
  | none => .notFound "File not found or error uploading file"
  | some result =>
      .found filename result.status
        (if result.status = "success" then some result.cloud_url else none)

/-- JSON body returned by POST /upload/. -/
structure UploadResponse where
  message : String
  filename : String
deriving Repr, DecidableEq

/-- Arguments captured by `background_tasks.add_task(upload_to_gcs,
file_content, filename, file.content_type)`. -/
structure ScheduledUpload where
  file_content : Bytes
  filename : String
  content_type : String
deriving Repr, DecidableEq

/-- POST /upload/ (`upload_file`, main.py lines 171-184): normalize the
filename, read the content, schedule the background task, and return the
acknowledgment.  The handler performs no database statement, so the
store it was called under is returned unchanged; the only write it
causes is deferred inside the scheduled `upload_to_gcs` task. -/
def upload_file (s : UploadStore) (file_name : String) (file_content : Bytes)
    (content_type : String) : UploadStore × UploadResponse × ScheduledUpload :=
  let filename := normalizeFilename file_name
  (s, ⟨"File is being uploaded...", filename⟩, ⟨file_content, filename, content_type⟩)

/-- Oracle for the library calls made by `upload_to_gcs`: whether the
initial INSERT succeeds, the result of `blob.upload_from_string`, and
whether each of the two UPDATE statements succeeds. -/
structure UploadEnv where
  insertOk : Bool
  gcs : Except String Unit
  updateSuccessOk : Bool
  updateFailedOk : Bool
deriving Repr

/-- Background task `upload_to_gcs` (main.py lines 39-73).  Order of
effects, as in the source: compute cloud_url; run the initial INSERT
with status uploading (outside any try, so a database failure there
propagates); then try: upload to GCS and UPDATE to success (both inside
the try); on any exception from the try block, UPDATE to failed (inside
the except handler, so a database failure there propagates). -/
def upload_to_gcs (env : UploadEnv) (s : UploadStore) (file_content : Bytes)
    (filename content_type : String) (now : Nat) (bucket_name : String) :
    Except String UploadStore :=
  let cloud_url := gcsUrl bucket_name filename
  if env.insertOk = false then Except.error "InsertError"
  else
    let s1 := insertUpload s filename now file_content.length cloud_url "uploading"
    let tryBlock : Except String UploadStore :=
      match env.gcs with
      | Except.error e => Except.error e
      | Except.ok _ =>
          if env.updateSuccessOk then Except.ok (updateStatus s1 filename "success")
          else Except.error "UpdateError"
    match tryBlock with
    | Except.ok s2 => Except.ok s2
    | Except.error _ =>
        if env.updateFailedOk then Except.ok (updateStatus s1 filename "failed")
        else Except.error "UpdateError"

/-! ## Email service -/

/-- Validated body of POST /send-email/ (`EmailSchema`). -/
structure EmailSchema where
  email : String
  subject : String
  body : String
deriving Repr, DecidableEq

/-- One document of the `email_logs` collection: `task_id, email,
status, error?, timestamp`; the error key is present only in the
failure branch of `send_email`. -/
structure EmailLogEntry where
  task_id : String
  email : String
  status : String
  error : Option String
  timestamp : Nat
deriving Repr, DecidableEq

/-- Oracle for the library calls made by `send_email`: the result of
`fast_mail.send_message`, and whether each `insert_one` succeeds. -/
structure EmailEnv where
  send : Except String Unit
  successInsertOk : Bool
  failureInsertOk : Bool
deriving Repr

/-- Background task `send_email` (SendEmail/main.py lines 87-116).
The try block sends the message and inserts the success document; the
except handler inserts a failure document carrying str(e) of whatever
exception the try block raised; an exception raised by that insert
itself propagates. -/
def send_email (env : EmailEnv) (logs : List EmailLogEntry) (email : EmailSchema)
    (task_id : String) (now : Nat) : Except String (List EmailLogEntry) :=
  let tryBlock : Except String (List EmailLogEntry) :=
    match env.send with
    | Except.error e => Except.error e
    | Except.ok _ =>
        if env.successInsertOk then
          Except.ok (logs ++ [⟨task_id, email.email, "success", none, now⟩])
        else Except.error "InsertError"
  match tryBlock with
  | Except.ok l => Except.ok l
  | Except.error e =>
      if env.failureInsertOk then
        Except.ok (logs ++ [⟨task_id, email.email, "failed", some e, now⟩])
      else Except.error "InsertError"

/-- JSON body returned by POST /send-email/. -/
structure EmailResponse where
  message : String
  task_id : String
deriving Repr, DecidableEq

/-- POST /send-email/ (`send_email_endpoint`, SendEmail/main.py lines
119-123): generate a task id (passed in, standing for str(uuid4())),
schedule `send_email` with the payload and that id, and return the
acknowledgment immediately.  No store write happens in the handler. -/
def send_email_endpoint (email : EmailSchema) (generated_uuid : String) :
    EmailResponse × (EmailSchema × String) :=
  (⟨"Email has been scheduled to be sent.", generated_uuid⟩, (email, generated_uuid))

/-! ## Audit-log middleware -/

/-- HTTP response as the middleware sees it: status code, headers and
the buffered body bytes. -/
structure HttpResponse where
  status_code : Nat
  headers : List (String × String)
  body : Bytes
deriving Repr, DecidableEq

/-- Value stored under a body key of an audit document in the upload
service: null for an empty body, the decoded JSON value, or the
placeholder string written when the guarded decode fails. -/
inductive BodyLog (J : Type) where
  | null
  | jsonVal (j : J)
  | marker (s : String)
deriving Repr, DecidableEq

/-- Audit document inserted by the upload-service middleware.  The
fields id, timestamp, query_params, client_host and the header dicts are
copied verbatim from the exchange and do not interact with any claim;
the modelled fields are the ones the decode logic computes. -/
structure AuditEntry (J : Type) where
  method : String
  url : String
  request_body : BodyLog J
  status_code : Nat
  response_body : BodyLog J
deriving Repr, DecidableEq

/-- Middleware `log_request_response` (Upload to cloud/main.py lines
111-154).  The request-body decode is wrapped in try/except and falls
back to the placeholder "Non-JSON body"; the response-body decode
`json.loads(response_body.decode("utf-8")) if response_body else None`
is not guarded, so a decode exception propagates.  When no exception is
raised the original buffered bytes are replayed to the client
unchanged. -/
def log_request_response (J : Type) (jsonLoads : Bytes → Except String J)
    (method url : String) (request_body : Bytes) (resp : HttpResponse) :
    Except String (AuditEntry J × HttpResponse) :=
  let reqLog : BodyLog J :=
    if request_body.isEmpty then .null
    else
      match jsonLoads request_body with
      | Except.ok j => .jsonVal j
      | Except.error _ => .marker "Non-JSON body"
  let respDecode : Except String (BodyLog J) :=
    if resp.body.isEmpty then Except.ok .null
    else
      match jsonLoads resp.body with
      | Except.ok j => Except.ok (.jsonVal j)
      | Except.error e => Except.error e
  match respDecode with
  | Except.error e => Except.error e
  | Except.ok respLog =>
      Except.ok (⟨method, url, reqLog, resp.status_code, respLog⟩, resp)

/-- Audit document inserted by the email-service middleware: both bodies
are stored as raw decoded text. -/
structure EmailAuditEntry where
  method : String
  url : String
  request_body : String
  response_status : Nat
  response_body : String
deriving Repr, DecidableEq

/-- Middleware `log_requests_to_mongodb` (SendEmail/main.py lines
31-65).  Both `request_body.decode("utf-8")` and
`response_body.decode("utf-8")` are unguarded, so a decode exception
propagates; there is no JSON decode and no placeholder at all. -/
def log_requests_to_mongodb (textDecode : Bytes → Except String String)
    (method url : String) (request_body : Bytes) (resp : HttpResponse) :
    Except String (EmailAuditEntry × HttpResponse) :=
  match textDecode request_body with
  | Except.error e => Except.error e
  | Except.ok reqText =>
      match textDecode resp.body with
      | Except.error e => Except.error e
      | Except.ok respText =>
          Except.ok (⟨method, url, reqText, resp.status_code, respText⟩, resp)

/-! ## Helper lemmas -/

/-- Unfolding of `get_upload_status` without the intermediate let. -/
lemma get_upload_status_eq (s : UploadStore) (f0 : String) :
    get_upload_status s f0 =
      match fetchrow s (normalizeFilename f0) with
      | none => .notFound "File not found or error uploading file"
      | some result =>
          .found (normalizeFilename f0) result.status
            (if result.status = "success" then some result.cloud_url else none) := rfl

/-- Substituting spaces by underscores twice is the same as doing it
once: the first pass leaves no space to substitute. -/
lemma map_space_underscore_idem (l : List Char) :
    (l.map (fun c => if c = ' ' then '_' else c)).map (fun c => if c = ' ' then '_' else c)
      = l.map (fun c => if c = ' ' then '_' else c) := by
  have hu : ('_' : Char) ≠ ' ' := by decide
  induction l with
  | nil => rfl
  | cons c cs ih =>
      by_cases hc : c = ' ' <;> simp [hc, hu, ih]

/-- Normalization is idempotent. -/
lemma normalizeFilename_idem (f : String) :
    normalizeFilename (normalizeFilename f) = normalizeFilename f :=
  congrArg String.mk (map_space_underscore_idem f.data)

/-- A filter that holds of no member of the list keeps nothing. -/
lemma filter_eq_nil_of_forall {α : Type} (p : α → Bool) (l : List α)
    (h : ∀ a ∈ l, p a = false) : l.filter p = [] := by
  induction l with
  | nil => rfl
  | cons a l2 ih =>
      rw [List.filter_cons_of_neg, ih (fun x hx => h x (by simp [hx]))]
      simp [h a (by simp)]

/-- Looking up a key absent from a prefix of the table skips that
prefix. -/
lemma fetchrow_append (s1 s2 : UploadStore) (f : String)
    (h : ∀ r ∈ s1, r.filename ≠ f) : fetchrow (s1 ++ s2) f = fetchrow s2 f := by
  induction s1 with
  | nil => rfl
  | cons r rs ih =>
      unfold fetchrow at *
      rw [List.cons_append, List.find?_cons_of_neg, ih (fun x hx => h x (by simp [hx]))]
      simp [h r (by simp)]

/-- An UPDATE whose WHERE clause matches no row leaves the table
unchanged. -/
lemma updateStatus_not_mem (s : UploadStore) (f st : String)
    (h : ∀ r ∈ s, r.filename ≠ f) : updateStatus s f st = s := by
  induction s with
  | nil => rfl
  | cons r rs ih =>
      unfold updateStatus at *
      rw [List.map_cons, if_neg (h r (by simp)), ih (fun x hx => h x (by simp [hx]))]

/-- Inserting a row for a previously unused filename and then updating
the status of that filename rewrites exactly the inserted row. -/
lemma updateStatus_insertUpload (s : UploadStore) (f : String) (now len : Nat)
    (url st0 st : String) (hfresh : ∀ r ∈ s, r.filename ≠ f) :
    updateStatus (insertUpload s f now len url st0) f st
      = s ++ [⟨f, now, len, url, st⟩] := by
  unfold insertUpload updateStatus
  rw [List.map_append]
  have h1 : List.map (fun r => if r.filename = f then { r with status := st } else r) s = s :=
    updateStatus_not_mem s f st hfresh
  rw [h1]
  simp

/-- Terminal status that `upload_to_gcs` persists when neither the
initial INSERT nor the failed-status UPDATE raises: success exactly
when the GCS call and the success UPDATE both go through. -/
def terminalStatus (env : UploadEnv) : String :=
  match env.gcs, env.updateSuccessOk with
  | Except.ok _, true => "success"
  | _, _ => "failed"

/-- The terminal status is one of the two terminal states. -/
lemma terminalStatus_cases (env : UploadEnv) :
    terminalStatus env = "success" ∨ terminalStatus env = "failed" := by
  obtain ⟨i, g, us, uf⟩ := env
  cases g <;> cases us <;> simp [terminalStatus]

/-- Whole-run shape of `upload_to_gcs` when the initial INSERT and the
failed-status UPDATE do not raise: it never raises and leaves the store
with the inserted row driven to the terminal status. -/
lemma upload_to_gcs_run (env : UploadEnv) (s : UploadStore) (content : Bytes)
    (f ct : String) (now : Nat) (b : String)
    (hi : env.insertOk = true) (hf : env.updateFailedOk = true) :
    upload_to_gcs env s content f ct now b =
      Except.ok (updateStatus (insertUpload s f now content.length (gcsUrl b f) "uploading")
        f (terminalStatus env)) := by
  obtain ⟨i, g, us, uf⟩ := env
  simp only at hi hf
  subst hi hf
  cases g <;> cases us <;> simp [upload_to_gcs, terminalStatus]

/-- Whole-run shape of `upload_to_gcs` when the INSERT, the GCS upload
and the success UPDATE all go through (the failed-status branch is never
reached, so its flag is irrelevant). -/
lemma upload_to_gcs_success_run (env : UploadEnv) (s : UploadStore) (content : Bytes)
    (f ct : String) (now : Nat) (b : String)
    (hi : env.insertOk = true) (hg : env.gcs = Except.ok ()) (hus : env.updateSuccessOk = true) :
    upload_to_gcs env s content f ct now b =
      Except.ok (updateStatus (insertUpload s f now content.length (gcsUrl b f) "uploading")
        f "success") := by
  obtain ⟨i, g, us, uf⟩ := env
  simp only at hi hg hus
  subst hi hg hus
  rfl

/-! ## Claim theorems -/

/-- C7: filename normalization, applied identically by the upload
handler and the status endpoint, is idempotent, and querying GET
/status/ with an un-normalized filename returns the same body as
querying with the normalized key. -/
theorem c7_normalization_idempotent :
    (∀ f : String, normalizeFilename (normalizeFilename f) = normalizeFilename f) ∧
    (∀ (s : UploadStore) (f : String),
      get_upload_status s f = get_upload_status s (normalizeFilename f)) := by
  refine ⟨normalizeFilename_idem, ?_⟩
  intro s f
  rw [get_upload_status_eq, get_upload_status_eq, normalizeFilename_idem]

/-- C4: for every filename, GET /status/ returns exactly the error
dictionary when no row exists for the normalized key, and otherwise
returns filename, status and a cloud_url that is the stored reference
when status is success and null for any other status. -/
theorem c4_status_endpoint_contract (s : UploadStore) (f : String) :
    (fetchrow s (normalizeFilename f) = none →
      get_upload_status s f = .notFound "File not found or error uploading file") ∧
    (∀ r, fetchrow s (normalizeFilename f) = some r → r.status ≠ "success" →
      get_upload_status s f = .found (normalizeFilename f) r.status none) ∧
    (∀ r, fetchrow s (normalizeFilename f) = some r → r.status = "success" →
      get_upload_status s f = .found (normalizeFilename f) r.status (some r.cloud_url)) := by
  refine ⟨?_, ?_, ?_⟩
  · intro h
    rw [get_upload_status_eq, h]
  · intro r h hs
    rw [get_upload_status_eq, h]
    simp [hs]
  · intro r h hs
    rw [get_upload_status_eq, h]
    simp [hs]

/-- Witness for C4: a never-submitted filename gives the error body; a
row in status uploading gives a null cloud_url; a row in status success
exposes its stored cloud_url. -/
theorem c4_status_endpoint_contract_witness :
    get_upload_status [] "unknown.pdf" = .notFound "File not found or error uploading file" ∧
    get_upload_status [⟨"a.pdf", 0, 1, "u", "uploading"⟩] "a.pdf"
      = .found (normalizeFilename "a.pdf") "uploading" none ∧
    get_upload_status [⟨"a.pdf", 0, 1, "u", "success"⟩] "a.pdf"
      = .found (normalizeFilename "a.pdf") "success" (some "u") :=
  ⟨(c4_status_endpoint_contract [] "unknown.pdf").1 (by decide),
   (c4_status_endpoint_contract [⟨"a.pdf", 0, 1, "u", "uploading"⟩] "a.pdf").2.1
     ⟨"a.pdf", 0, 1, "u", "uploading"⟩ (by decide) (by decide),
   (c4_status_endpoint_contract [⟨"a.pdf", 0, 1, "u", "success"⟩] "a.pdf").2.2
     ⟨"a.pdf", 0, 1, "u", "success"⟩ (by decide) (by decide)⟩

/-- C1 counterexample: the POST /upload/ handler performs no store
write at all, so at the moment its response is returned the store is
exactly what it was before, and an immediate GET /status/ for the
filename of that response hits the not-found branch, contrary to the
claim that it returns status uploading and never a not-found signal. -/
theorem c1_counterexample :
    (upload_file [] "test file.pdf" [1, 2, 3] "application/pdf").1 = [] ∧
    (upload_file [] "test file.pdf" [1, 2, 3] "application/pdf").2.1.filename
      = "test_file.pdf" ∧
    get_upload_status [] "test_file.pdf"
      = .notFound "File not found or error uploading file" :=
  ⟨rfl, by decide, by decide⟩

/-- C1 amended: the initial record with status uploading is written by
the background task `upload_to_gcs` before its external upload attempt,
not by the handler before the response; the handler leaves the store
unchanged, and a GET issued once the background task has performed its
initial insert (and before the terminal update) returns status
uploading with a null cloud_url. -/
theorem c1_amended_initial_write_in_task (s : UploadStore) (name : String)
    (content : Bytes) (ct : String) (now : Nat) (bucket : String)
    (hfresh : ∀ r ∈ s, r.filename ≠ normalizeFilename name) :
    (upload_file s name content ct).1 = s ∧
    get_upload_status
      (insertUpload s (normalizeFilename name) now content.length
        (gcsUrl bucket (normalizeFilename name)) "uploading") name
      = .found (normalizeFilename name) "uploading" none := by
  refine ⟨rfl, ?_⟩
  rw [get_upload_status_eq]
  unfold insertUpload
  rw [fetchrow_append s _ _ hfresh]
  simp [fetchrow]

/-- Witness for the amended C1 at a concrete submission. -/
theorem c1_amended_initial_write_in_task_witness :
    (upload_file [] "My File.pdf" [9] "application/pdf").1 = [] ∧
    get_upload_status
      (insertUpload [] (normalizeFilename "My File.pdf") 0 ([9] : Bytes).length
        (gcsUrl "bucket" (normalizeFilename "My File.pdf")) "uploading") "My File.pdf"
      = .found (normalizeFilename "My File.pdf") "uploading" none :=
  c1_amended_initial_write_in_task [] "My File.pdf" [9] "application/pdf" 0 "bucket"
    (by simp)

/-- C2 counterexample: a failure of one of the task-owned store writes
does propagate past the task boundary with no failed record persisted.
Left: the initial INSERT of `upload_to_gcs` sits outside the try block,
so its exception escapes the task.  Right: in `send_email` the
failure-branch insert itself sits inside the except handler, so its
exception escapes the task. -/
theorem c2_counterexample :
    upload_to_gcs ⟨false, Except.ok (), true, true⟩ [] [1] "f.pdf" "ct" 0 "b"
      = Except.error "InsertError" ∧
    send_email ⟨Except.error "SMTP down", true, false⟩ [] ⟨"a@b.com", "hi", "hello"⟩ "t1" 0
      = Except.error "InsertError" :=
  ⟨rfl, rfl⟩

/-- C2 amended: a failure of the external operation (and even of the
success-path store write, which sits inside the try block) is caught
inside the task and never propagates, provided the task-owned initial
insert (upload flow) and the failure-path store write succeed; those
two writes are the only task code outside the protection of the
try/except. -/
theorem c2_amended_no_propagation :
    (∀ (env : UploadEnv) (s : UploadStore) (content : Bytes) (f ct : String)
        (now : Nat) (b : String),
      env.insertOk = true → env.updateFailedOk = true →
      ∃ s2, upload_to_gcs env s content f ct now b = Except.ok s2) ∧
    (∀ (env : EmailEnv) (logs : List EmailLogEntry) (em : EmailSchema)
        (tid : String) (now : Nat),
      env.failureInsertOk = true →
      ∃ l2, send_email env logs em tid now = Except.ok l2) := by
  refine ⟨?_, ?_⟩
  · intro env s content f ct now b hi hf
    exact ⟨_, upload_to_gcs_run env s content f ct now b hi hf⟩
  · intro env logs em tid now hf
    obtain ⟨snd, si, fi⟩ := env
    simp only at hf
    subst hf
    cases snd with
    | ok u => cases si <;> exact ⟨_, rfl⟩
    | error e => exact ⟨_, rfl⟩

/-- Witness for the amended C2: with sound store writes, neither a GCS
failure with a failed success-update nor an SMTP failure raises. -/
theorem c2_amended_no_propagation_witness :
    (∃ s2, upload_to_gcs ⟨true, Except.error "gcs down", false, true⟩ [] [1] "f.pdf" "ct" 0 "b"
      = Except.ok s2) ∧
    (∃ l2, send_email ⟨Except.error "SMTP down", true, true⟩ [] ⟨"a@b.com", "hi", "hello"⟩ "t1" 0
      = Except.ok l2) :=
  ⟨c2_amended_no_propagation.1 ⟨true, Except.error "gcs down", false, true⟩ [] [1]
    "f.pdf" "ct" 0 "b" rfl rfl,
   c2_amended_no_propagation.2 ⟨Except.error "SMTP down", true, true⟩ []
    ⟨"a@b.com", "hi", "hello"⟩ "t1" 0 rfl⟩

/-- C3 counterexample: when the GCS upload fails, the `uploads` row is
driven to status failed but records no description of the error at all:
the persisted store is exactly the five schema columns, and it is the
same store whatever the error message was, so no stringified error
description is included (only the email flow stores one). -/
theorem c3_counterexample :
    upload_to_gcs ⟨true, Except.error "gcs: bucket unreachable", true, true⟩ [] [7] "f.pdf" "ct" 0 "b"
      = Except.ok [⟨"f.pdf", 0, 1, gcsUrl "b" "f.pdf", "failed"⟩] ∧
    upload_to_gcs ⟨true, Except.error "gcs: bucket unreachable", true, true⟩ [] [7] "f.pdf" "ct" 0 "b"
      = upload_to_gcs ⟨true, Except.error "an entirely different error", true, true⟩ [] [7] "f.pdf" "ct" 0 "b" :=
  ⟨rfl, rfl⟩

/-- C3 amended: on failure of the external operation the email task
persists a failed document that carries str(e), while the upload task
persists only status failed with no error description — the uploads
table has no error column and the persisted store does not depend on
the error message. -/
theorem c3_amended_error_description :
    (∀ (e : String) (env : EmailEnv) (logs : List EmailLogEntry) (em : EmailSchema)
        (tid : String) (now : Nat),
      env.send = Except.error e → env.failureInsertOk = true →
      send_email env logs em tid now
        = Except.ok (logs ++ [⟨tid, em.email, "failed", some e, now⟩])) ∧
    (∀ (e1 e2 : String) (i us uf : Bool) (s : UploadStore) (content : Bytes)
        (f ct : String) (now : Nat) (b : String),
      upload_to_gcs ⟨i, Except.error e1, us, uf⟩ s content f ct now b
        = upload_to_gcs ⟨i, Except.error e2, us, uf⟩ s content f ct now b) := by
  refine ⟨?_, ?_⟩
  · intro e env logs em tid now hs hf
    obtain ⟨snd, si, fi⟩ := env
    simp only at hs hf
    subst hs hf
    rfl
  · intro e1 e2 i us uf s content f ct now b
    cases i <;> cases uf <;> rfl

/-- Witness for the amended C3: a concrete SMTP failure is logged with
its message; a concrete pair of GCS failures leaves identical stores. -/
theorem c3_amended_error_description_witness :
    send_email ⟨Except.error "SMTP down", true, true⟩ [] ⟨"a@b.com", "hi", "hello"⟩ "t9" 5
      = Except.ok [⟨"t9", "a@b.com", "failed", some "SMTP down", 5⟩] ∧
    upload_to_gcs ⟨true, Except.error "x", true, true⟩ [] [4] "g.pdf" "ct" 1 "b"
      = upload_to_gcs ⟨true, Except.error "y", true, true⟩ [] [4] "g.pdf" "ct" 1 "b" :=
  ⟨c3_amended_error_description.1 "SMTP down" ⟨Except.error "SMTP down", true, true⟩ []
    ⟨"a@b.com", "hi", "hello"⟩ "t9" 5 rfl rfl,
   c3_amended_error_description.2 "x" "y" true true true [] [4] "g.pdf" "ct" 1 "b"⟩

/-- C5: a valid POST /send-email/ immediately returns the scheduling
message together with the freshly generated task id, handing the same
id to the scheduled task; and once the background send attempt
completes (its store writes going through), the email-outcome store
holds exactly one document with that task id, its status terminal and
its error key present exactly when the status is failed. -/
theorem c5_send_email_contract (env : EmailEnv) (logs : List EmailLogEntry)
    (em : EmailSchema) (tid : String) (now : Nat)
    (hsi : env.successInsertOk = true) (hfi : env.failureInsertOk = true)
    (hfresh : ∀ r ∈ logs, r.task_id ≠ tid) :
    (send_email_endpoint em tid).1 = ⟨"Email has been scheduled to be sent.", tid⟩ ∧
    (send_email_endpoint em tid).2 = (em, tid) ∧
    ∃ l2, send_email env logs em tid now = Except.ok l2 ∧
      (l2.filter (fun r => r.task_id == tid)).length = 1 ∧
      ∀ r ∈ l2, r.task_id = tid →
        (r.status = "success" ∨ r.status = "failed") ∧
        (r.error.isSome ↔ r.status = "failed") := by
  refine ⟨rfl, rfl, ?_⟩
  have hnil : logs.filter (fun r => r.task_id == tid) = [] :=
    filter_eq_nil_of_forall _ logs
      (fun r hr => beq_eq_false_iff_ne.mpr (hfresh r hr))
  obtain ⟨snd, si, fi⟩ := env
  simp only at hsi hfi
  subst hsi hfi
  cases snd with
  | ok u =>
      refine ⟨logs ++ [(⟨tid, em.email, "success", none, now⟩ : EmailLogEntry)], rfl, ?_, ?_⟩
      · rw [List.filter_append, hnil]
        simp
      · intro r hr hrt
        rcases List.mem_append.mp hr with h1 | h2
        · exact absurd hrt (hfresh r h1)
        · have : r = ⟨tid, em.email, "success", none, now⟩ := by simpa using h2
          subst this
          refine ⟨Or.inl rfl, ?_⟩
          simp
  | error e =>
      refine ⟨logs ++ [(⟨tid, em.email, "failed", some e, now⟩ : EmailLogEntry)], rfl, ?_, ?_⟩
      · rw [List.filter_append, hnil]
        simp
      · intro r hr hrt
        rcases List.mem_append.mp hr with h1 | h2
        · exact absurd hrt (hfresh r h1)
        · have : r = ⟨tid, em.email, "failed", some e, now⟩ := by simpa using h2
          subst this
          refine ⟨Or.inr rfl, ?_⟩
          simp

/-- Witness for C5 at a concrete request and a failing send. -/
theorem c5_send_email_contract_witness :
    (send_email_endpoint ⟨"a@b.com", "hi", "hello"⟩ "7f9c1a").1
      = ⟨"Email has been scheduled to be sent.", "7f9c1a"⟩ ∧
    (send_email_endpoint ⟨"a@b.com", "hi", "hello"⟩ "7f9c1a").2
      = (⟨"a@b.com", "hi", "hello"⟩, "7f9c1a") ∧
    ∃ l2, send_email ⟨Except.error "SMTP down", true, true⟩ []
        ⟨"a@b.com", "hi", "hello"⟩ "7f9c1a" 0 = Except.ok l2 ∧
      (l2.filter (fun r => r.task_id == "7f9c1a")).length = 1 ∧
      ∀ r ∈ l2, r.task_id = "7f9c1a" →
        (r.status = "success" ∨ r.status = "failed") ∧
        (r.error.isSome ↔ r.status = "failed") :=
  c5_send_email_contract ⟨Except.error "SMTP down", true, true⟩ []
    ⟨"a@b.com", "hi", "hello"⟩ "7f9c1a" 0 rfl rfl (by simp)

/-- C6: when the external storage operation (and the terminal UPDATE)
succeed for a first submission of a filename, the record ends in status
success with a cloud_url equal to the deterministic bucket-URL function
of the normalized filename, and GET /status/ then returns exactly that
URL. -/
theorem c6_success_cloud_url (env : UploadEnv) (s : UploadStore) (content : Bytes)
    (name ct : String) (now : Nat) (bucket : String)
    (hi : env.insertOk = true) (hg : env.gcs = Except.ok ())
    (hus : env.updateSuccessOk = true)
    (hfresh : ∀ r ∈ s, r.filename ≠ normalizeFilename name) :
    ∃ s2, upload_to_gcs env s content (normalizeFilename name) ct now bucket
        = Except.ok s2 ∧
      s2 = s ++ [⟨normalizeFilename name, now, content.length,
        gcsUrl bucket (normalizeFilename name), "success"⟩] ∧
      get_upload_status s2 name
        = .found (normalizeFilename name) "success"
            (some (gcsUrl bucket (normalizeFilename name))) := by
  have hrun := upload_to_gcs_success_run env s content (normalizeFilename name) ct now bucket
    hi hg hus
  rw [updateStatus_insertUpload s _ now content.length _ "uploading" "success" hfresh] at hrun
  refine ⟨_, hrun, rfl, ?_⟩
  rw [get_upload_status_eq, fetchrow_append s _ _ hfresh]
  simp [fetchrow]

/-- Witness for C6 at a concrete successful upload of My File.pdf. -/
theorem c6_success_cloud_url_witness :
    ∃ s2, upload_to_gcs ⟨true, Except.ok (), true, true⟩ [] [1, 2]
        (normalizeFilename "My File.pdf") "application/pdf" 3 "mybucket"
        = Except.ok s2 ∧
      s2 = [] ++ [⟨normalizeFilename "My File.pdf", 3, ([1, 2] : Bytes).length,
        gcsUrl "mybucket" (normalizeFilename "My File.pdf"), "success"⟩] ∧
      get_upload_status s2 "My File.pdf"
        = .found (normalizeFilename "My File.pdf") "success"
            (some (gcsUrl "mybucket" (normalizeFilename "My File.pdf"))) :=
  c6_success_cloud_url ⟨true, Except.ok (), true, true⟩ [] [1, 2] "My File.pdf"
    "application/pdf" 3 "mybucket" rfl rfl rfl (by simp)

/-- C9 counterexample: `filename` does not uniquely identify one
UploadRecord, and a terminal update is not confined to a single row.
The table accepts a second row for the same filename, and the second
task running its except-branch UPDATE drives both rows to failed — the
first record, already terminal in success, undergoes a second terminal
transition. -/
theorem c9_counterexample :
    upload_to_gcs ⟨true, Except.ok (), true, true⟩ [] [5] "dup.pdf" "ct" 0 "b"
      = Except.ok [⟨"dup.pdf", 0, 1, gcsUrl "b" "dup.pdf", "success"⟩] ∧
    upload_to_gcs ⟨true, Except.error "gcs down", true, true⟩
        [⟨"dup.pdf", 0, 1, gcsUrl "b" "dup.pdf", "success"⟩] [5] "dup.pdf" "ct" 1 "b"
      = Except.ok [⟨"dup.pdf", 0, 1, gcsUrl "b" "dup.pdf", "failed"⟩,
                   ⟨"dup.pdf", 1, 1, gcsUrl "b" "dup.pdf", "failed"⟩] :=
  ⟨rfl, rfl⟩

/-- C9 amended: uniqueness of filename holds only for submissions of a
filename with no prior row: then the completed task leaves exactly one
row for that filename and that row is in a terminal state after its
single transition; submitting the same filename twice creates a second
row and a later UPDATE WHERE filename rewrites every row with that
filename. -/
theorem c9_amended_unique_when_fresh (env : UploadEnv) (s : UploadStore)
    (content : Bytes) (f ct : String) (now : Nat) (b : String)
    (hi : env.insertOk = true) (hf : env.updateFailedOk = true)
    (hfresh : ∀ r ∈ s, r.filename ≠ f) :
    ∃ s2, upload_to_gcs env s content f ct now b = Except.ok s2 ∧
      (s2.filter (fun r => r.filename == f)).length = 1 ∧
      ∀ r ∈ s2, r.filename = f → (r.status = "success" ∨ r.status = "failed") := by
  have hrun := upload_to_gcs_run env s content f ct now b hi hf
  rw [updateStatus_insertUpload s f now content.length _ "uploading" _ hfresh] at hrun
  refine ⟨_, hrun, ?_, ?_⟩
  · rw [List.filter_append,
      filter_eq_nil_of_forall _ s (fun r hr => beq_eq_false_iff_ne.mpr (hfresh r hr))]
    simp
  · intro r hr hrt
    rcases List.mem_append.mp hr with h1 | h2
    · exact absurd hrt (hfresh r h1)
    · have : r = ⟨f, now, content.length, gcsUrl b f, terminalStatus env⟩ := by
        simpa using h2
      subst this
      exact terminalStatus_cases env

/-- Witness for the amended C9 at a concrete fresh submission whose
upload fails. -/
theorem c9_amended_unique_when_fresh_witness :
    ∃ s2, upload_to_gcs ⟨true, Except.error "gcs down", true, true⟩ [] [5]
        "solo.pdf" "ct" 0 "b" = Except.ok s2 ∧
      (s2.filter (fun r => r.filename == "solo.pdf")).length = 1 ∧
      ∀ r ∈ s2, r.filename = "solo.pdf" →
        (r.status = "success" ∨ r.status = "failed") :=
  c9_amended_unique_when_fresh ⟨true, Except.error "gcs down", true, true⟩ [] [5]
    "solo.pdf" "ct" 0 "b" rfl rfl (by simp)

/-- Projections that ignore the status column are untouched by
`updateStatus`. -/
lemma updateStatus_map_proj {α : Type} (g : UploadRow → α)
    (hg : ∀ (r : UploadRow) (st : String), g { r with status := st } = g r)
    (s : UploadStore) (f st : String) :
    (updateStatus s f st).map g = s.map g := by
  induction s with
  | nil => rfl
  | cons r rs ih =>
      unfold updateStatus at ih ⊢
      rw [List.map_cons, List.map_cons, List.map_cons, ih]
      by_cases hr : r.filename = f
      · rw [if_pos hr, hg]
      · rw [if_neg hr]

/-- C10: the terminal UPDATE rewrites only the status column — the
filename, timestamp, file_size and cloud_url columns of every row are
exactly as inserted — and for a completed task the row carries the
cloud_url, file_size and timestamp fixed at the initial insert, with
cloud_url computed before the upload outcome is known. -/
theorem c10_terminal_update_frame :
    (∀ (s : UploadStore) (f st : String),
      (updateStatus s f st).map (fun r => r.filename) = s.map (fun r => r.filename) ∧
      (updateStatus s f st).map (fun r => r.timestamp) = s.map (fun r => r.timestamp) ∧
      (updateStatus s f st).map (fun r => r.file_size) = s.map (fun r => r.file_size) ∧
      (updateStatus s f st).map (fun r => r.cloud_url) = s.map (fun r => r.cloud_url)) ∧
    (∀ (env : UploadEnv) (s : UploadStore) (content : Bytes) (f ct : String)
        (now : Nat) (b : String),
      env.insertOk = true → env.updateFailedOk = true →
      (∀ r ∈ s, r.filename ≠ f) →
      ∀ s2, upload_to_gcs env s content f ct now b = Except.ok s2 →
        ∀ r ∈ s2, r.filename = f →
          r.cloud_url = gcsUrl b f ∧ r.file_size = content.length ∧
          r.timestamp = now) := by
  refine ⟨?_, ?_⟩
  · intro s f st
    exact ⟨updateStatus_map_proj (fun r => r.filename) (fun r st2 => rfl) s f st,
           updateStatus_map_proj (fun r => r.timestamp) (fun r st2 => rfl) s f st,
           updateStatus_map_proj (fun r => r.file_size) (fun r st2 => rfl) s f st,
           updateStatus_map_proj (fun r => r.cloud_url) (fun r st2 => rfl) s f st⟩
  · intro env s content f ct now b hi hf hfresh s2 hrun r hr hrt
    rw [upload_to_gcs_run env s content f ct now b hi hf,
      updateStatus_insertUpload s f now content.length _ "uploading" _ hfresh] at hrun
    have hs2 : s2 = s ++ [⟨f, now, content.length, gcsUrl b f, terminalStatus env⟩] := by
      injection hrun.symm
    subst hs2
    rcases List.mem_append.mp hr with h1 | h2
    · exact absurd hrt (hfresh r h1)
    · have : r = ⟨f, now, content.length, gcsUrl b f, terminalStatus env⟩ := by
        simpa using h2
      subst this
      exact ⟨rfl, rfl, rfl⟩

/-- Witness for C10: the frame equalities at a concrete two-row table,
and the creation-time fields of a concrete failed upload. -/
theorem c10_terminal_update_frame_witness :
    ((updateStatus [⟨"a", 0, 1, "u", "uploading"⟩, ⟨"b", 2, 3, "v", "uploading"⟩] "a" "failed").map
        (fun r => r.cloud_url)
      = ([⟨"a", 0, 1, "u", "uploading"⟩, ⟨"b", 2, 3, "v", "uploading"⟩] : UploadStore).map
          (fun r => r.cloud_url)) ∧
    (∀ r ∈ ([⟨"c.pdf", 4, 2, gcsUrl "b" "c.pdf", "failed"⟩] : UploadStore),
      r.filename = "c.pdf" →
        r.cloud_url = gcsUrl "b" "c.pdf" ∧ r.file_size = ([8, 9] : Bytes).length ∧
        r.timestamp = 4) :=
  ⟨(c10_terminal_update_frame.1 [⟨"a", 0, 1, "u", "uploading"⟩, ⟨"b", 2, 3, "v", "uploading"⟩]
      "a" "failed").2.2.2,
   c10_terminal_update_frame.2 ⟨true, Except.error "gcs down", true, true⟩ [] [8, 9]
     "c.pdf" "ct" 4 "b" rfl rfl (by simp) [⟨"c.pdf", 4, 2, gcsUrl "b" "c.pdf", "failed"⟩] rfl⟩

/-- C8 counterexample: a response body that fails to decode as JSON is
not tolerated by the upload-service middleware — the unguarded decode
raises, the exception escapes the middleware and the client never
receives the business response, contrary to the claim that every decode
failure is recorded as a placeholder. -/
theorem c8_counterexample :
    log_request_response Unit (fun b => Except.error "Expecting value") "GET" "/status/x"
      [] ⟨200, [], [104, 105]⟩
      = Except.error "Expecting value" := rfl

/-- C8 amended: the upload-service middleware tolerates only
request-body decode failures, recording the placeholder Non-JSON body
and replaying the response bytes unchanged; a decode failure of a
non-empty response body propagates out of it, and in the email-service
middleware the raw text decode of the request body is likewise
unguarded and propagates. -/
theorem c8_amended_partial_tolerance :
    (∀ (J : Type) (jsonLoads : Bytes → Except String J) (m u : String)
        (reqBody : Bytes) (resp : HttpResponse),
      (resp.body = [] ∨ ∃ j, jsonLoads resp.body = Except.ok j) →
      ∃ entry, log_request_response J jsonLoads m u reqBody resp = Except.ok (entry, resp) ∧
        (∀ e, reqBody ≠ [] → jsonLoads reqBody = Except.error e →
          entry.request_body = BodyLog.marker "Non-JSON body")) ∧
    (∀ (J : Type) (jsonLoads : Bytes → Except String J) (m u : String)
        (reqBody : Bytes) (resp : HttpResponse) (e : String),
      resp.body ≠ [] → jsonLoads resp.body = Except.error e →
      log_request_response J jsonLoads m u reqBody resp = Except.error e) ∧
    (∀ (textDecode : Bytes → Except String String) (m u : String)
        (reqBody : Bytes) (resp : HttpResponse) (e : String),
      textDecode reqBody = Except.error e →
      log_requests_to_mongodb textDecode m u reqBody resp = Except.error e) := by
  refine ⟨?_, ?_, ?_⟩
  · intro J jsonLoads m u reqBody resp hresp
    have hdec : (if resp.body.isEmpty then Except.ok BodyLog.null
        else match jsonLoads resp.body with
          | Except.ok j => Except.ok (BodyLog.jsonVal j)
          | Except.error e => Except.error e) = Except.ok
            (if resp.body.isEmpty then BodyLog.null
             else match jsonLoads resp.body with
               | Except.ok j => BodyLog.jsonVal j
               | Except.error e => BodyLog.marker e) := by
      rcases hresp with hnil | ⟨j, hj⟩
      · rw [hnil]
        rfl
      · rw [hj]
        by_cases hb : resp.body.isEmpty <;> simp [hb, hj]
    refine ⟨⟨m, u,
      (if reqBody.isEmpty then BodyLog.null
       else match jsonLoads reqBody with
         | Except.ok j => BodyLog.jsonVal j
         | Except.error _ => BodyLog.marker "Non-JSON body"),
      resp.status_code,
      (if resp.body.isEmpty then BodyLog.null
       else match jsonLoads resp.body with
         | Except.ok j => BodyLog.jsonVal j
         | Except.error e => BodyLog.marker e)⟩, ?_, ?_⟩
    · unfold log_request_response
      rw [hdec]
    · intro e hne hde
      have hb : reqBody.isEmpty = false := by
        cases reqBody with
        | nil => exact absurd rfl hne
        | cons a l => rfl
      simp [hb, hde]
  · intro J jsonLoads m u reqBody resp e hne hde
    have hb : resp.body.isEmpty = false := by
      cases h : resp.body with
      | nil => exact absurd h hne
      | cons a l => rfl
    unfold log_request_response
    rw [hb]
    simp [hde]
  · intro textDecode m u reqBody resp e hde
    unfold log_requests_to_mongodb
    rw [hde]

/-- Witness for the amended C8: a concrete decoder that fails on the
request bytes but decodes the response bytes; a concrete propagating
response-decode failure; a concrete propagating raw-text failure. -/
theorem c8_amended_partial_tolerance_witness :
    (∃ entry, log_request_response Unit
        (fun b => if b = [3, 4] then Except.ok () else Except.error "Expecting value")
        "POST" "/upload/" [1] ⟨200, [], [3, 4]⟩
        = Except.ok (entry, ⟨200, [], [3, 4]⟩) ∧
      (∀ e, ([1] : Bytes) ≠ [] →
        (fun (b : Bytes) => if b = [3, 4] then Except.ok () else Except.error "Expecting value") [1]
          = Except.error e →
        entry.request_body = BodyLog.marker "Non-JSON body")) ∧
    log_request_response Unit (fun b => Except.error "Expecting value") "POST" "/upload/"
      [] ⟨200, [], [7]⟩ = Except.error "Expecting value" ∧
    log_requests_to_mongodb (fun b => Except.error "UnicodeDecodeError") "POST" "/send-email/"
      [255] ⟨200, [], []⟩ = Except.error "UnicodeDecodeError" :=
  ⟨c8_amended_partial_tolerance.1 Unit
      (fun b => if b = [3, 4] then Except.ok () else Except.error "Expecting value")
      "POST" "/upload/" [1] ⟨200, [], [3, 4]⟩ (Or.inr ⟨(), by simp⟩),
   c8_amended_partial_tolerance.2.1 Unit (fun b => Except.error "Expecting value")
      "POST" "/upload/" [] ⟨200, [], [7]⟩ "Expecting value" (by simp) rfl,
   c8_amended_partial_tolerance.2.2 (fun b => Except.error "UnicodeDecodeError")
      "POST" "/send-email/" [255] ⟨200, [], []⟩ "UnicodeDecodeError" rfl⟩
